import Mathlib

/-!
Verification of the ethereal_testnet trading system core.

Shallow embedding of the Python sources:
  * `src/account_manager.py` (AccountManager / CapitalLedger),
  * `src/risk_manager.py` (RiskManager / RiskGate),
  * `src/trading_engine.py` (TradingEngine / ExecutionOrchestrator),
  * `src/strategies/grid_trading.py` (GridTradingStrategy).

Modelling conventions:
  * Python `float` values are modelled as exact rationals `ℚ`
    (`0.001` becomes `1/1000`, `0.005` becomes `1/200`).
  * Python dicts with `get(key, 0)` access are modelled as total functions
    defaulting to `0`; dicts whose key sets matter (balances) are modelled
    as association lists.
  * `async` methods have no concurrency-relevant behaviour inside a single
    call, so each method becomes a pure state-transformer; methods that
    mutate `self` return the updated state.
  * Log calls, timestamps and UUIDs are effect-free for every property
    below and are omitted.
-/

namespace Ethereal

/-- Order side, the `'buy'` / `'sell'` strings of the sources.  The engine
and the strategies only ever produce these two values; `risk_manager.py`
and `trading_engine.py` branch on `side == 'buy'` with an `else` covering
`'sell'`. -/
inductive Side where
  | buy : Side
  | sell : Side
deriving DecidableEq, Repr

/-- Order status strings of `trading_engine.py`: `'pending'`, `'submitted'`,
`'partial'`, `'filled'`, `'failed'`.  The source's `'partial'` status is named
`partFilled` here. -/
inductive OrderStatus where
  | pending : OrderStatus
  | submitted : OrderStatus
  | partFilled : OrderStatus
  | filled : OrderStatus
  | failed : OrderStatus
deriving DecidableEq, Repr

/-! ### AccountManager (`src/account_manager.py`) -/

/-- The `Account` dataclass (`account_manager.py` lines 9-20).  `api_key`
and `api_secret` play no role in any claim and are omitted; `balance` is an
association list asset ↦ amount (the code sums `balance.values()`);
`positions` is a total function ticker ↦ signed quantity, defaulting to `0`
exactly as `positions.get(ticker, 0)` does. -/
structure Account where
  account_id : String
  balance : List (String × ℚ)
  positions : String → ℚ
  risk_limit : ℚ
  max_position_size : ℚ
  is_active : Bool := true

/-- The `AccountManager`'s `self.accounts` dict, keyed by `account_id`.
We keep the values in insertion order; the Python dict guarantees unique
keys, which lookups below reflect by taking the first match. -/
structure AccountManagerState where
  accounts : List Account

/-- `AccountManager.get_account` (lines 52-54): dict lookup by id. -/
def get_account (am : AccountManagerState) (account_id : String) : Option Account :=
  am.accounts.find? (fun a => a.account_id = account_id)

/-- `AccountManager.get_active_accounts` (lines 56-58). -/
def get_active_accounts (am : AccountManagerState) : List Account :=
  am.accounts.filter (fun a => a.is_active)

/-- `AccountManager.check_risk_limits` (lines 72-95).  Note the source adds
`new_position_size` to the current position without regard to side — the
caller (`trading_engine.py` line 173) passes the unsigned order quantity —
and treats `account_value == 0` as `risk_ratio = 1` regardless of
`position_value`. -/
def check_risk_limits (am : AccountManagerState) (account_id : String)
    (new_position_size : ℚ) (ticker : String) : Bool :=
  match get_account am account_id with
  | none => false
  | some account =>
    let current_position := account.positions ticker
    let total_position := |current_position + new_position_size|
    if total_position > account.max_position_size then false
    else
      let account_value := (account.balance.map Prod.snd).sum
      let position_value := total_position
      let risk_ratio := if account_value > 0 then position_value / account_value else 1
      if risk_ratio > account.risk_limit then false
      else true

/-- The three allocation strategies of `AccountManager.allocate_funds`
(lines 97-128). -/
inductive AllocStrategy where
  | equal : AllocStrategy
  | risk_weighted : AllocStrategy
  | balance_weighted : AllocStrategy
deriving DecidableEq, Repr

/-- `AccountManager.allocate_funds` (lines 97-128).  The result models the
`allocation` dict as an association list account_id ↦ amount; active
accounts have pairwise-distinct ids because `self.accounts` is a dict. -/
def allocate_funds (am : AccountManagerState) (total_amount : ℚ)
    (allocation_strategy : AllocStrategy) : List (String × ℚ) :=
  let active_accounts := get_active_accounts am
  if active_accounts.isEmpty then []
  else
    match allocation_strategy with
    | .equal =>
      let amount_per_account := total_amount / (active_accounts.length : ℚ)
      active_accounts.map (fun a => (a.account_id, amount_per_account))
    | .risk_weighted =>
      let total_risk_capacity := (active_accounts.map (fun a => a.risk_limit)).sum
      active_accounts.map (fun a =>
        (a.account_id, total_amount * (a.risk_limit / total_risk_capacity)))
    | .balance_weighted =>
      let total_balance := (active_accounts.map (fun a => (a.balance.map Prod.snd).sum)).sum
      if total_balance > 0 then
        active_accounts.map (fun a =>
          (a.account_id, total_amount * ((a.balance.map Prod.snd).sum / total_balance)))
      else []

/-! ### RiskManager (`src/risk_manager.py`) -/

/-- The `RiskMetrics` dataclass (lines 10-20), all fields defaulting to 0. -/
structure RiskMetrics where
  max_drawdown : ℚ := 0
  current_drawdown : ℚ := 0
  var_95 : ℚ := 0
  sharpe_ratio : ℚ := 0
  win_rate : ℚ := 0
  profit_factor : ℚ := 0
  total_pnl : ℚ := 0
  daily_pnl : ℚ := 0
deriving DecidableEq, Repr

/-- A trade record as appended by `RiskManager.update_position`
(lines 140-148): the dict literal has exactly the keys `timestamp`,
`account_id`, `ticker`, `side`, `quantity`, `price`, `value` — and,
crucially, no `pnl` key.  The wall-clock `timestamp` carries no
information used anywhere and is omitted. -/
structure Trade where
  account_id : String
  ticker : String
  side : Side
  quantity : ℚ
  price : ℚ
  value : ℚ
deriving DecidableEq, Repr

/-- `trade.get('pnl', 0)` as evaluated by `update_risk_metrics` and
`_calculate_equity_curve`: a `Trade` record has no `pnl` key, so the
lookup always yields the default `0`. -/
def tradeGetPnl (_ : Trade) : ℚ := 0

/-- The `RiskManager`'s state: the configuration limits read in
`__init__` (lines 30-37) and the mutable risk-monitoring data
(lines 40-47).  `positions` is account ↦ ticker ↦ signed quantity and
`daily_pnl` is account ↦ pnl, both defaulting to `0` as the dict
`get(..., 0)` accesses do. -/
structure RiskManagerState where
  max_daily_loss : ℚ
  max_position_size : ℚ
  max_drawdown_limit : ℚ
  max_leverage : ℚ
  positions : String → String → ℚ
  daily_pnl : String → ℚ
  trade_history : List Trade
  risk_metrics : RiskMetrics
  is_risk_mode : Bool
  emergency_stop : Bool

/-- `RiskManager.__init__` (lines 25-47) with explicit limit parameters
(the config defaults are 1000, 10000, 1/10, 3). -/
def RiskManagerState.init (max_daily_loss max_position_size
    max_drawdown_limit max_leverage : ℚ) : RiskManagerState where
  max_daily_loss := max_daily_loss
  max_position_size := max_position_size
  max_drawdown_limit := max_drawdown_limit
  max_leverage := max_leverage
  positions := fun _ _ => 0
  daily_pnl := fun _ => 0
  trade_history := []
  risk_metrics := {}
  is_risk_mode := false
  emergency_stop := false

/-- The order-data dict consumed by `RiskManager.check_pre_trade_risk`
(lines 49-55): `account_id` is already resolved (the source defaults a
missing key to `'default'`). -/
structure OrderData where
  account_id : String
  ticker : String
  side : Side
  quantity : ℚ
  price : ℚ

/-- `RiskManager._check_position_limits` (lines 80-97).  The only mutation
in the source is inserting an empty per-account dict, which is invisible in
the total-function model, so this is pure. -/
def _check_position_limits (s : RiskManagerState) (account_id ticker : String)
    (quantity : ℚ) (side : Side) : Bool :=
  let current_position := s.positions account_id ticker
  let new_position :=
    match side with
    | .buy => current_position + quantity
    | .sell => current_position - quantity
  if |new_position| > s.max_position_size then false else true

/-- `RiskManager._check_daily_loss_limit` (lines 99-108); sets the sticky
`is_risk_mode` flag on failure. -/
def _check_daily_loss_limit (s : RiskManagerState) (account_id : String) :
    Bool × RiskManagerState :=
  if s.daily_pnl account_id < -s.max_daily_loss then
    (false, { s with is_risk_mode := true })
  else (true, s)

/-- `RiskManager._check_margin_requirements` (lines 110-115): a placeholder
that always passes. -/
def _check_margin_requirements (_s : RiskManagerState) (_account_id : String)
    (_quantity _price : ℚ) : Bool :=
  true

/-- `RiskManager._check_drawdown_limit` (lines 117-124); sets the sticky
`is_risk_mode` flag on failure. -/
def _check_drawdown_limit (s : RiskManagerState) : Bool × RiskManagerState :=
  if s.risk_metrics.current_drawdown > s.max_drawdown_limit then
    (false, { s with is_risk_mode := true })
  else (true, s)

/-- `RiskManager.check_pre_trade_risk` (lines 49-78): the ordered,
short-circuiting chain of the five pre-trade checks. -/
def check_pre_trade_risk (s : RiskManagerState) (od : OrderData) :
    Bool × RiskManagerState :=
  if s.emergency_stop then (false, s)
  else if ¬ _check_position_limits s od.account_id od.ticker od.quantity od.side then
    (false, s)
  else
    match _check_daily_loss_limit s od.account_id with
    | (false, s1) => (false, s1)
    | (true, s1) =>
      if ¬ _check_margin_requirements s1 od.account_id od.quantity od.price then
        (false, s1)
      else
        match _check_drawdown_limit s1 with
        | (false, s2) => (false, s2)
        | (true, s2) => (true, s2)

/-- `RiskManager._update_pnl` (lines 156-170): on a sell, add
`trade_value * 0.001` to the per-account daily pnl and to the running
daily/total metrics; a buy changes nothing. -/
def _update_pnl (s : RiskManagerState) (account_id : String) (side : Side)
    (quantity price : ℚ) : RiskManagerState :=
  match side with
  | .buy => s
  | .sell =>
    let trade_value := quantity * price
    let pnl := trade_value * (1 / 1000)
    { s with
      daily_pnl := Function.update s.daily_pnl account_id (s.daily_pnl account_id + pnl)
      risk_metrics := { s.risk_metrics with
        daily_pnl := s.risk_metrics.daily_pnl + pnl
        total_pnl := s.risk_metrics.total_pnl + pnl } }

/-- `RiskManager.update_position` (lines 126-154): apply the signed
position delta, append one trade record, then update pnl. -/
def update_position (s : RiskManagerState) (account_id ticker : String)
    (side : Side) (quantity price : ℚ) : RiskManagerState :=
  let old := s.positions account_id ticker
  let newPos :=
    match side with
    | .buy => old + quantity
    | .sell => old - quantity
  let trade : Trade :=
    { account_id := account_id, ticker := ticker, side := side
      quantity := quantity, price := price, value := quantity * price }
  let s1 := { s with
    positions := Function.update s.positions account_id
      (Function.update (s.positions account_id) ticker newPos)
    trade_history := s.trade_history ++ [trade] }
  _update_pnl s1 account_id side quantity price

/-- The equity-curve fold of `RiskManager._calculate_equity_curve`
(lines 217-225): starting from `start`, append `last + trade.get('pnl', 0)`
for each trade. -/
def equityFrom (start : ℚ) : List Trade → List ℚ
  | [] => [start]
  | t :: ts => start :: equityFrom (start + tradeGetPnl t) ts

/-- `RiskManager._calculate_equity_curve` (lines 217-225), seeded with the
fixed initial equity 10000. -/
def _calculate_equity_curve (s : RiskManagerState) : List ℚ :=
  equityFrom 10000 s.trade_history

/-- Python's `max` over a nonempty list (the `[]` case is never reached by
`update_risk_metrics`, whose curve always holds the 10000 seed). -/
def listMax : List ℚ → ℚ
  | [] => 0
  | x :: xs => xs.foldl max x

/-- `RiskManager.update_risk_metrics` (lines 199-215): no-op on an empty
trade history; otherwise recompute `win_rate`, and from the equity curve
`current_drawdown` and the running `max_drawdown`. -/
def update_risk_metrics (s : RiskManagerState) : RiskManagerState :=
  if s.trade_history.isEmpty then s
  else
    let profitable := s.trade_history.filter (fun t => 0 < tradeGetPnl t)
    let win_rate := (profitable.length : ℚ) / (s.trade_history.length : ℚ)
    let s1 := { s with risk_metrics := { s.risk_metrics with win_rate := win_rate } }
    let equity_curve := _calculate_equity_curve s
    if equity_curve.isEmpty then s1
    else
      let max_equity := listMax equity_curve
      let current_equity := (equity_curve.getLast?).getD 0
      let current_drawdown := (max_equity - current_equity) / max_equity
      { s1 with risk_metrics := { s1.risk_metrics with
          current_drawdown := current_drawdown
          max_drawdown := max s1.risk_metrics.max_drawdown current_drawdown } }

/-- `RiskManager.emergency_stop_all` (lines 227-238): set the sticky flag
and zero every tracked position (absent keys already read as 0 in the
total-function model). -/
def emergency_stop_all (s : RiskManagerState) : RiskManagerState :=
  { s with emergency_stop := true, positions := fun _ _ => 0 }

/-! ### TradingEngine (`src/trading_engine.py`) -/

/-- An order intent dict as produced by a strategy and consumed by
`TradingEngine._submit_order`; `account_id` is `Optional` exactly as
`order_data.get('account_id')` can be `None`. -/
structure OrderIntent where
  account_id : Option String
  ticker : String
  side : Side
  quantity : ℚ
  price : ℚ

/-- The `Order` object (`trading_engine.py` lines 13-29), restricted to the
fields the lifecycle properties read; `order_id`, `order_type`, `strategy`,
`created_at` and `metadata` are carried along unchanged by every transition
and are omitted. -/
structure EngineOrder where
  account_id : Option String
  ticker : String
  side : Side
  quantity : ℚ
  price : ℚ
  status : OrderStatus
  filled_quantity : ℚ
  remaining_quantity : ℚ
deriving DecidableEq, Repr

/-- The `Order.__init__` constructor (lines 16-29): a fresh order starts in
`'pending'` with nothing filled. -/
def mkOrder (od : OrderIntent) : EngineOrder where
  account_id := od.account_id
  ticker := od.ticker
  side := od.side
  quantity := od.quantity
  price := od.price
  status := .pending
  filled_quantity := 0
  remaining_quantity := od.quantity

/-- `TradingEngine._submit_order` (lines 165-205).  `clients` is the set of
account ids holding an `AsyncRESTClient` (`self.clients`); `orders` is the
registry `self.orders`.  The source consults only
`self.account_manager.check_risk_limits` — no `RiskManager` object is
reachable from the engine, so no risk-manager state appears here.  The
exchange call is commented out in the source and submission always
succeeds, setting the status to `'submitted'` and registering the order;
risk-check or missing-client failures drop the intent. -/
def _submit_order (am : AccountManagerState) (clients : List String)
    (orders : List EngineOrder) (od : OrderIntent) : List EngineOrder :=
  let order := mkOrder od
  let account_id := od.account_id.getD "default"
  if ¬ check_risk_limits am account_id order.quantity order.ticker then orders
  else if ¬ clients.contains account_id then orders
  else orders ++ [{ order with status := .submitted }]

/-- The per-order status transition applied by
`TradingEngine._update_order_status` (lines 217-233): the loop touches only
orders whose status is `'submitted'` or `'partial'`, and inside it only a
`'submitted'` order changes — it becomes `'filled'` with
`filled_quantity = quantity` and `remaining_quantity = 0`. -/
def reconcileOrder (o : EngineOrder) : EngineOrder :=
  if o.status = .submitted then
    { o with status := .filled, filled_quantity := o.quantity, remaining_quantity := 0 }
  else o

/-- `TradingEngine._update_order_status` (lines 217-233) over the whole
registry. -/
def _update_order_status (orders : List EngineOrder) : List EngineOrder :=
  orders.map reconcileOrder

/-- The status component of `reconcileOrder`: `'submitted'` becomes
`'filled'`, every other status is left untouched by the reconciliation
loop. -/
def reconcileStatus (s : OrderStatus) : OrderStatus :=
  if s = .submitted then .filled else s

/-- One status transition of the orchestrator, as performed by either
`_submit_order` (`pending → submitted` on acceptance, `pending → failed` on
a client exception, lines 186-202) or the reconciliation loop
(`reconcileStatus`).  Orders are created in `'pending'` and these are the
only places `trading_engine.py` assigns `order.status`. -/
inductive StatusStep : OrderStatus → OrderStatus → Prop where
  | submit_ok : StatusStep .pending .submitted
  | submit_fail : StatusStep .pending .failed
  | reconcile (s : OrderStatus) : StatusStep s (reconcileStatus s)

/-- A status history of one order: consecutive entries are related by
`StatusStep`. -/
def IsTrace : List OrderStatus → Prop
  | [] => True
  | [_] => True
  | a :: b :: rest => StatusStep a b ∧ IsTrace (b :: rest)

/-! ### GridTradingStrategy (`src/strategies/grid_trading.py`) -/

/-- The grid parameters read in `GridTradingStrategy.__init__`
(lines 14-20); `center_price` here is the already-anchored centre
(`execute` sets it to the first-seen market price when unset). -/
structure GridConfig where
  grid_count : ℕ
  grid_spacing : ℚ
  base_volume : ℚ
  center_price : ℚ

/-- A grid order dict as built by `_generate_grid_orders` (lines 57-66 and
71-80); the constant fields `'type': 'limit'` and `'strategy': self.name`
are omitted. -/
structure GridOrder where
  ticker : String
  side : Side
  quantity : ℚ
  price : ℚ
  grid_level : ℤ
deriving DecidableEq, Repr

/-- The Python iteration `range(-self.grid_count//2, self.grid_count//2 + 1)`
(line 51).  Python `//` is floor division and unary minus binds tighter
than `//`, so the lower bound is `⌊-grid_count / 2⌋ = Int.fdiv`. -/
def gridLevels (grid_count : ℕ) : List ℤ :=
  let lo := Int.fdiv (-(grid_count : ℤ)) 2
  let hi := Int.fdiv (grid_count : ℤ) 2
  (List.range (hi + 1 - lo).toNat).map (fun k => lo + (k : ℤ))

/-- `GridTradingStrategy._generate_grid_orders` (lines 46-83): skip level
0; at each other level compute `grid_price = center × (1 + i × spacing)`
and emit a buy below the current price, a sell above it, nothing at
exactly the current price. -/
def _generate_grid_orders (cfg : GridConfig) (ticker : String)
    (current_price : ℚ) : List GridOrder :=
  (gridLevels cfg.grid_count).filterMap (fun (i : ℤ) =>
    if i = 0 then none
    else
      let grid_price := cfg.center_price * (1 + (i : ℚ) * cfg.grid_spacing)
      if grid_price < current_price then
        some { ticker := ticker, side := .buy, quantity := cfg.base_volume
               price := grid_price, grid_level := i }
      else if grid_price > current_price then
        some { ticker := ticker, side := .sell, quantity := cfg.base_volume
               price := grid_price, grid_level := i }
      else none)

/-! ### The gated-fill pipeline (claim C3)

One account trading one ticker through the submission pipeline: each fill
was gated by a passing `check_risk_limits` call that received the unsigned
order quantity (`trading_engine.py` lines 173-175 pass `order.quantity`),
and the fill then applies the signed delta to the position
(`risk_manager.py` lines 134-137). -/

/-- The account `acct` with its position in `ticker` set to `pos`. -/
def accountWithPos (acct : Account) (ticker : String) (pos : ℚ) : Account :=
  { acct with positions := Function.update acct.positions ticker pos }

/-- A single-account manager holding `acct` with position `pos` in
`ticker`. -/
def singleAccountAM (acct : Account) (ticker : String) (pos : ℚ) :
    AccountManagerState :=
  { accounts := [accountWithPos acct ticker pos] }

/-- Positions of `acct` in `ticker` reachable from a flat book through
`check_risk_limits`-gated fills: the gate sees the unsigned quantity, the
fill applies the signed delta. -/
inductive GatedReach (acct : Account) (ticker : String) : ℚ → Prop where
  | start : GatedReach acct ticker 0
  | buy (pos quantity : ℚ) (hq : 0 < quantity)
      (hgate : check_risk_limits (singleAccountAM acct ticker pos)
        acct.account_id quantity ticker = true)
      (hprev : GatedReach acct ticker pos) :
      GatedReach acct ticker (pos + quantity)
  | sell (pos quantity : ℚ) (hq : 0 < quantity)
      (hgate : check_risk_limits (singleAccountAM acct ticker pos)
        acct.account_id quantity ticker = true)
      (hprev : GatedReach acct ticker pos) :
      GatedReach acct ticker (pos - quantity)

/-- Buy-only restriction of `GatedReach`. -/
inductive GatedReachBuy (acct : Account) (ticker : String) : ℚ → Prop where
  | start : GatedReachBuy acct ticker 0
  | buy (pos quantity : ℚ) (hq : 0 < quantity)
      (hgate : check_risk_limits (singleAccountAM acct ticker pos)
        acct.account_id quantity ticker = true)
      (hprev : GatedReachBuy acct ticker pos) :
      GatedReachBuy acct ticker (pos + quantity)

/-! ### RiskManager reachability (claims C9) -/

/-- Risk-manager states reachable from a freshly initialised manager by
any interleaving of `update_position` (the order-update callback wired in
`main.py` lines 76-84) and `update_risk_metrics` (the risk loop in
`main.py` line 121). -/
inductive RMReachable (s0 : RiskManagerState) : RiskManagerState → Prop where
  | start : RMReachable s0 s0
  | fill (s : RiskManagerState) (account_id ticker : String) (side : Side)
      (quantity price : ℚ) (hprev : RMReachable s0 s) :
      RMReachable s0 (update_position s account_id ticker side quantity price)
  | refresh (s : RiskManagerState) (hprev : RMReachable s0 s) :
      RMReachable s0 (update_risk_metrics s)

/-! ### Concrete fixtures used in witnesses and counterexamples -/

/-- A solvent demo account: one unit of USDT, generous risk limit, position
cap 10. -/
def demoAcct : Account where
  account_id := "a1"
  balance := [("USDT", 1)]
  positions := fun _ => 0
  risk_limit := 100
  max_position_size := 10
  is_active := true

/-- An account whose balances sum to zero, with the config-default risk
limit 0.02 (`account_manager.py` line 45). -/
def zeroValueAcct : Account where
  account_id := "a1"
  balance := [("USDT", 0)]
  positions := fun _ => 0
  risk_limit := 1 / 50
  max_position_size := 1000
  is_active := true

/-- A freshly initialised risk manager with the config defaults
(`risk_manager.py` lines 30-33). -/
def rmDemo : RiskManagerState := RiskManagerState.init 1000 10000 (1 / 10) 3

/-- A manager with two active demo accounts. -/
def amTwo : AccountManagerState :=
  { accounts := [demoAcct, { demoAcct with account_id := "a2" }] }

/-- The grid configuration of the spec's test vector: `grid_count = 10`,
`grid_spacing = 0.005`, `base_volume = 0.1`, centre 100. -/
def gridCfg : GridConfig :=
  { grid_count := 10, grid_spacing := 1 / 200, base_volume := 1 / 10, center_price := 100 }

/-! ### Claim theorems -/

/-- C2: for every order intent, if the risk manager's `emergency_stop` flag
is set, `check_pre_trade_risk` returns deny (`False`), regardless of the
intent's account, ticker, side, quantity or price. -/
theorem emergency_stop_denies_pre_trade (s : RiskManagerState) (od : OrderData)
    (h : s.emergency_stop = true) : (check_pre_trade_risk s od).1 = false := by
  simp [check_pre_trade_risk, h]

/-- Witness for C2 at a concrete stopped manager and intent. -/
theorem emergency_stop_denies_pre_trade_witness :
    (emergency_stop_all rmDemo).emergency_stop = true ∧
    (check_pre_trade_risk (emergency_stop_all rmDemo)
      { account_id := "a1", ticker := "ETH", side := .buy
        quantity := 1, price := 1 }).1 = false :=
  ⟨rfl, emergency_stop_denies_pre_trade _ _ rfl⟩

/-- C10: `update_risk_metrics` called with an empty trade history is a
no-op: the state, hence every metric field, is returned unchanged. -/
theorem update_risk_metrics_empty_noop (s : RiskManagerState)
    (h : s.trade_history = []) : update_risk_metrics s = s := by
  simp [update_risk_metrics, h]

/-- Witness for C10 at the freshly initialised manager. -/
theorem update_risk_metrics_empty_noop_witness :
    update_risk_metrics rmDemo = rmDemo :=
  update_risk_metrics_empty_noop rmDemo rfl

/-- C6: `update_position` adds the signed delta to the per-account
per-ticker position (+qty for buy, -qty for sell), appends exactly one
trade record, and applies the pnl model `notional * 0.001` on sell fills
only — buys leave the per-account daily pnl and every metrics field
untouched. -/
theorem update_position_spec (s : RiskManagerState) (account_id ticker : String)
    (side : Side) (quantity price : ℚ) :
    (side = .buy →
      (update_position s account_id ticker side quantity price).positions account_id ticker
        = s.positions account_id ticker + quantity) ∧
    (side = .sell →
      (update_position s account_id ticker side quantity price).positions account_id ticker
        = s.positions account_id ticker - quantity) ∧
    (update_position s account_id ticker side quantity price).trade_history
      = s.trade_history ++
        [{ account_id := account_id, ticker := ticker, side := side
           quantity := quantity, price := price, value := quantity * price }] ∧
    (side = .sell →
      (update_position s account_id ticker side quantity price).daily_pnl account_id
        = s.daily_pnl account_id + quantity * price * (1 / 1000) ∧
      (update_position s account_id ticker side quantity price).risk_metrics.daily_pnl
        = s.risk_metrics.daily_pnl + quantity * price * (1 / 1000) ∧
      (update_position s account_id ticker side quantity price).risk_metrics.total_pnl
        = s.risk_metrics.total_pnl + quantity * price * (1 / 1000)) ∧
    (side = .buy →
      (update_position s account_id ticker side quantity price).daily_pnl = s.daily_pnl ∧
      (update_position s account_id ticker side quantity price).risk_metrics
        = s.risk_metrics) := by
  cases side <;>
    simp [update_position, _update_pnl, mul_assoc]

/-- Witness for C6 at a concrete sell fill. -/
theorem update_position_spec_witness :
    (update_position rmDemo "a1" "ETH" .sell 2 3).positions "a1" "ETH"
      = rmDemo.positions "a1" "ETH" - 2 ∧
    (update_position rmDemo "a1" "ETH" .sell 2 3).trade_history
      = rmDemo.trade_history ++
        [{ account_id := "a1", ticker := "ETH", side := .sell
           quantity := 2, price := 3, value := 2 * 3 }] ∧
    (update_position rmDemo "a1" "ETH" .sell 2 3).daily_pnl "a1"
      = rmDemo.daily_pnl "a1" + 2 * 3 * (1 / 1000) :=
  ⟨(update_position_spec rmDemo "a1" "ETH" .sell 2 3).2.1 rfl,
   (update_position_spec rmDemo "a1" "ETH" .sell 2 3).2.2.1,
   ((update_position_spec rmDemo "a1" "ETH" .sell 2 3).2.2.2.1 rfl).1⟩

/-- C7: `allocate_funds` with strategy equal gives every active account
exactly `total / N` (so the keys are exactly the active account ids and
the allocations sum to the total), and an empty active-account set yields
an empty mapping rather than an error. -/
theorem allocate_funds_equal_spec (am : AccountManagerState) (total_amount : ℚ) :
    (get_active_accounts am = [] → allocate_funds am total_amount .equal = []) ∧
    (get_active_accounts am ≠ [] →
      ((allocate_funds am total_amount .equal).map Prod.fst
        = (get_active_accounts am).map Account.account_id) ∧
      (∀ p ∈ allocate_funds am total_amount .equal,
        p.2 = total_amount / ((get_active_accounts am).length : ℚ)) ∧
      ((allocate_funds am total_amount .equal).map Prod.snd).sum = total_amount) := by
  constructor
  · intro h
    simp [allocate_funds, h]
  · intro h
    have hEmpty : (get_active_accounts am).isEmpty = false := by
      simpa using h
    refine ⟨?_, ?_, ?_⟩
    · simp [allocate_funds, hEmpty, List.map_map]
    · intro p hp
      simp only [allocate_funds, hEmpty, Bool.false_eq_true, if_false,
        List.mem_map] at hp
      obtain ⟨a, ha, rfl⟩ := hp
      rfl
    · have hlen : ((get_active_accounts am).length : ℚ) ≠ 0 := by
        have := List.length_pos.mpr h
        exact_mod_cast Nat.pos_iff_ne_zero.mp this
      simp only [allocate_funds, hEmpty, Bool.false_eq_true, if_false, List.map_map]
      have hcomp :
          (Prod.snd ∘ fun a : Account =>
            (a.account_id, total_amount / ((get_active_accounts am).length : ℚ)))
          = fun _ : Account => total_amount / ((get_active_accounts am).length : ℚ) := rfl
      rw [hcomp, List.map_const', List.sum_replicate, nsmul_eq_mul]
      field_simp

/-- Witness for C7 with two active accounts and total 10. -/
theorem allocate_funds_equal_witness :
    get_active_accounts amTwo ≠ [] ∧
    ((allocate_funds amTwo 10 .equal).map Prod.snd).sum = 10 :=
  ⟨by simp [get_active_accounts, amTwo, demoAcct],
   ((allocate_funds_equal_spec amTwo 10).2
     (by simp [get_active_accounts, amTwo, demoAcct])).2.2⟩

/-- The grid levels iterated for `grid_count = 10`:
`range(-10//2, 10//2 + 1) = [-5, …, 5]`. -/
theorem gridLevels_ten : gridLevels 10 = [-5, -4, -3, -2, -1, 0, 1, 2, 3, 4, 5] := by
  decide

/-- The ten order intents the claim expects for the spec's grid test
vector: five buys at the levels -5…-1 and five sells at the levels 1…5
(prices `100 × (1 + i × 0.005)`). -/
def gridExpected : List GridOrder :=
  [{ ticker := "ETH", side := .buy, quantity := 1 / 10, price := 195 / 2, grid_level := -5 },
   { ticker := "ETH", side := .buy, quantity := 1 / 10, price := 98, grid_level := -4 },
   { ticker := "ETH", side := .buy, quantity := 1 / 10, price := 197 / 2, grid_level := -3 },
   { ticker := "ETH", side := .buy, quantity := 1 / 10, price := 99, grid_level := -2 },
   { ticker := "ETH", side := .buy, quantity := 1 / 10, price := 199 / 2, grid_level := -1 },
   { ticker := "ETH", side := .sell, quantity := 1 / 10, price := 201 / 2, grid_level := 1 },
   { ticker := "ETH", side := .sell, quantity := 1 / 10, price := 101, grid_level := 2 },
   { ticker := "ETH", side := .sell, quantity := 1 / 10, price := 203 / 2, grid_level := 3 },
   { ticker := "ETH", side := .sell, quantity := 1 / 10, price := 102, grid_level := 4 },
   { ticker := "ETH", side := .sell, quantity := 1 / 10, price := 205 / 2, grid_level := 5 }]

/-- C8: the grid strategy at `grid_count = 10`, `spacing = 0.005`,
centre 100 and current price 100 emits exactly these ten intents: five
buys at grid prices below 100 (levels -5…-1), five sells at grid prices
above 100 (levels 1…5), and nothing at level 0. -/
theorem grid_orders_test_vector :
    _generate_grid_orders gridCfg "ETH" 100 = gridExpected ∧
    (_generate_grid_orders gridCfg "ETH" 100).length = 10 ∧
    ((_generate_grid_orders gridCfg "ETH" 100).filter
      (fun o => o.side = .buy)).map (fun o => o.grid_level) = [-5, -4, -3, -2, -1] ∧
    ((_generate_grid_orders gridCfg "ETH" 100).filter
      (fun o => o.side = .sell)).map (fun o => o.grid_level) = [1, 2, 3, 4, 5] ∧
    ((_generate_grid_orders gridCfg "ETH" 100).filter
      (fun o => o.grid_level = 0)).length = 0 ∧
    (195 : ℚ) / 2 < 100 ∧ (98 : ℚ) < 100 ∧ (197 : ℚ) / 2 < 100 ∧
    (99 : ℚ) < 100 ∧ (199 : ℚ) / 2 < 100 ∧
    (100 : ℚ) < 201 / 2 ∧ (100 : ℚ) < 101 ∧ (100 : ℚ) < 203 / 2 ∧
    (100 : ℚ) < 102 ∧ (100 : ℚ) < 205 / 2 := by
  have heq : _generate_grid_orders gridCfg "ETH" 100 = gridExpected := by
    rw [_generate_grid_orders, gridCfg]
    rw [gridLevels_ten]
    norm_num [gridExpected, List.filterMap_cons]
  refine ⟨heq, ?_, ?_, ?_, ?_, by norm_num, by norm_num, by norm_num, by norm_num,
    by norm_num, by norm_num, by norm_num, by norm_num, by norm_num, by norm_num⟩ <;>
    rw [heq] <;> rfl

/-- Counterexample for C5: an account whose balances sum to 0 and whose
prospective position_value is also 0 still fails `check_risk_limits` — the
position-limit test passes and the failure comes from the risk-ratio test,
because the source sets `risk_ratio = 1` whenever `account_value == 0`,
regardless of `position_value`. -/
theorem check_risk_limits_zero_value_cex :
    (zeroValueAcct.balance.map Prod.snd).sum = 0 ∧
    |zeroValueAcct.positions "ETH" + 0| = 0 ∧
    ¬ (|zeroValueAcct.positions "ETH" + 0| > zeroValueAcct.max_position_size) ∧
    check_risk_limits { accounts := [zeroValueAcct] } "a1" 0 "ETH" = false := by
  refine ⟨by simp [zeroValueAcct], by simp [zeroValueAcct],
    by norm_num [zeroValueAcct], ?_⟩
  simp [check_risk_limits, get_account, zeroValueAcct]
  norm_num

/-- C5 amended: when the account's balances sum to 0, the risk ratio is
taken as 1 regardless of position_value, so `check_risk_limits` returns
`False` whenever the account's `risk_limit < 1` — even when the prospective
position_value is 0. -/
theorem check_risk_limits_zero_account_value (am : AccountManagerState)
    (account_id ticker : String) (new_position_size : ℚ) (acct : Account)
    (hacct : get_account am account_id = some acct)
    (hv : (acct.balance.map Prod.snd).sum = 0)
    (hrl : acct.risk_limit < 1) :
    check_risk_limits am account_id new_position_size ticker = false := by
  simp only [check_risk_limits, hacct, hv]
  split
  · rfl
  · rw [if_neg (lt_irrefl (0 : ℚ)), if_pos hrl]

/-- Witness for C5's amended claim at the concrete zero-value account. -/
theorem check_risk_limits_zero_account_value_witness :
    (zeroValueAcct.balance.map Prod.snd).sum = 0 ∧
    zeroValueAcct.risk_limit < 1 ∧
    check_risk_limits { accounts := [zeroValueAcct] } "a1" 5 "ETH" = false :=
  ⟨by simp [zeroValueAcct], by norm_num [zeroValueAcct],
   check_risk_limits_zero_account_value { accounts := [zeroValueAcct] } "a1" "ETH" 5
     zeroValueAcct rfl (by simp [zeroValueAcct]) (by norm_num [zeroValueAcct])⟩

/-- C1 (exhibiting the code defect): `TradingEngine._submit_order` consults
only `AccountManager.check_risk_limits`; the engine holds no reference to
the `RiskManager`, and `check_pre_trade_risk` — the only place the
`emergency_stop` flag is read — has no caller anywhere in the repository.
So with the flag set, submitting a limits-passing intent still registers an
order in status `'submitted'`, violating the claimed invariant. -/
theorem submit_ignores_emergency_stop :
    (emergency_stop_all rmDemo).emergency_stop = true ∧
    (_submit_order { accounts := [demoAcct] } ["a1"] []
      { account_id := some "a1", ticker := "ETH", side := .buy
        quantity := 5, price := 1 }).map (fun o => o.status)
      = [OrderStatus.submitted] := by
  refine ⟨rfl, ?_⟩
  simp [_submit_order, mkOrder, check_risk_limits, get_account, demoAcct]
  norm_num

/-- The registry reconciliation changes exactly the status component given
by `reconcileStatus`. -/
theorem reconcileOrder_status (o : EngineOrder) :
    (reconcileOrder o).status = reconcileStatus o.status := by
  by_cases hs : o.status = .submitted <;> simp [reconcileOrder, reconcileStatus, hs]

/-- Case analysis on a single orchestrator status transition. -/
theorem statusStep_cases {a b : OrderStatus} (h : StatusStep a b) :
    (a = .pending ∧ b = .submitted) ∨ (a = .pending ∧ b = .failed) ∨
    b = reconcileStatus a := by
  cases h with
  | submit_ok => exact .inl ⟨rfl, rfl⟩
  | submit_fail => exact .inr (.inl ⟨rfl, rfl⟩)
  | reconcile s => exact .inr (.inr rfl)

/-- A trace headed `'failed'` never contains `'filled'`: the failed state
is terminal. -/
theorem failed_trace_no_filled :
    ∀ rest : List OrderStatus, IsTrace (.failed :: rest) →
      OrderStatus.filled ∉ OrderStatus.failed :: rest := by
  intro rest
  induction rest with
  | nil => intro _ hmem; simp at hmem
  | cons b rest ih =>
    intro htr hmem
    obtain ⟨hstep, htr'⟩ := htr
    rcases statusStep_cases hstep with ⟨h1, _⟩ | ⟨h1, _⟩ | h2
    · simp at h1
    · simp at h1
    · simp only [reconcileStatus, reduceIte] at h2
      subst h2
      have hmem' : OrderStatus.filled ∈ OrderStatus.failed :: rest := by
        rcases List.mem_cons.mp hmem with h | h
        · simp at h
        · exact h
      exact ih htr' hmem'

/-- In a pending-headed trace, any occurrence of `'filled'` is preceded by
an occurrence of `'submitted'`. -/
theorem pending_trace_filled_via_submitted :
    ∀ rest : List OrderStatus, IsTrace (.pending :: rest) →
      OrderStatus.filled ∈ rest → OrderStatus.submitted ∈ rest := by
  intro rest
  induction rest with
  | nil => intro _ hmem; simp at hmem
  | cons b rest ih =>
    intro htr hmem
    obtain ⟨hstep, htr'⟩ := htr
    rcases statusStep_cases hstep with ⟨_, hb⟩ | ⟨_, hb⟩ | hb
    · subst hb
      exact List.mem_cons_self _ _
    · subst hb
      exact absurd hmem (failed_trace_no_filled rest htr')
    · simp only [reconcileStatus, reduceIte] at hb
      subst hb
      have hmem' : OrderStatus.filled ∈ rest := by
        rcases List.mem_cons.mp hmem with h | h
        · simp at h
        · exact h
      exact List.mem_cons_of_mem _ (ih htr' hmem')

/-- C4: the order lifecycle is forward-only.  Along any status trace that
starts at `'pending'` (where `Order.__init__` puts every order), reaching
`'filled'` requires having been `'submitted'`; no transition leaves the
terminal states `'filled'` or `'failed'` (in particular none goes
`'filled' → 'submitted'`); and the reconciliation step is the move
`'submitted' → 'filled'`. -/
theorem order_lifecycle_forward_only :
    (∀ rest : List OrderStatus, IsTrace (.pending :: rest) →
      OrderStatus.filled ∈ OrderStatus.pending :: rest →
      OrderStatus.submitted ∈ OrderStatus.pending :: rest) ∧
    (∀ b, StatusStep .filled b → b = .filled) ∧
    (∀ b, StatusStep .failed b → b = .failed) ∧
    reconcileStatus .submitted = .filled := by
  refine ⟨?_, ?_, ?_, rfl⟩
  · intro rest htr hmem
    have hmem' : OrderStatus.filled ∈ rest := by
      rcases List.mem_cons.mp hmem with h | h
      · simp at h
      · exact h
    exact List.mem_cons_of_mem _ (pending_trace_filled_via_submitted rest htr hmem')
  · intro b hb
    rcases statusStep_cases hb with ⟨h1, _⟩ | ⟨h1, _⟩ | h2
    · simp at h1
    · simp at h1
    · simpa [reconcileStatus] using h2
  · intro b hb
    rcases statusStep_cases hb with ⟨h1, _⟩ | ⟨h1, _⟩ | h2
    · simp at h1
    · simp at h1
    · simpa [reconcileStatus] using h2

/-- Witness for C4 along the concrete successful lifecycle
pending → submitted → filled. -/
theorem order_lifecycle_forward_only_witness :
    IsTrace [.pending, .submitted, .filled] ∧
    OrderStatus.submitted
      ∈ [OrderStatus.pending, OrderStatus.submitted, OrderStatus.filled] := by
  have ht : IsTrace [OrderStatus.pending, .submitted, .filled] :=
    ⟨StatusStep.submit_ok, StatusStep.reconcile .submitted, trivial⟩
  exact ⟨ht, order_lifecycle_forward_only.1 [.submitted, .filled] ht (by simp)⟩

/-- A passing `check_risk_limits` call bounds the prospective value it
checked: the first test of the source guarantees
`|position + new_position_size| <= max_position_size`. -/
theorem check_risk_limits_passes_bound (acct : Account) (ticker : String) (pos q : ℚ)
    (h : check_risk_limits (singleAccountAM acct ticker pos)
      acct.account_id q ticker = true) :
    |pos + q| ≤ acct.max_position_size := by
  have hacct : get_account (singleAccountAM acct ticker pos) acct.account_id
      = some (accountWithPos acct ticker pos) := by
    simp [get_account, singleAccountAM, accountWithPos]
  rw [check_risk_limits, hacct] at h
  simp only [accountWithPos, Function.update_same] at h
  by_contra hgt
  rw [if_pos (not_le.mp hgt)] at h
  exact Bool.false_ne_true h

/-- C3 amended: buy-only gated fills respect the limit — for buys the
signed delta coincides with the unsigned quantity handed to the gate, so
every gated buy lands exactly on the value the gate checked.  (For sells
the gate still adds the unsigned quantity while the fill subtracts it, and
the invariant fails; see the counterexample.) -/
theorem gated_buy_fills_respect_limit (acct : Account) (ticker : String)
    (hmax : 0 ≤ acct.max_position_size) :
    ∀ pos : ℚ, GatedReachBuy acct ticker pos → |pos| ≤ acct.max_position_size := by
  intro pos h
  induction h with
  | start => simpa using hmax
  | buy pos q hq hgate hprev ih =>
    exact check_risk_limits_passes_bound acct ticker pos q hgate

/-- Witness for C3's amended claim: one gated buy of 5 on the demo
account. -/
theorem gated_buy_fills_respect_limit_witness :
    0 ≤ demoAcct.max_position_size ∧
    GatedReachBuy demoAcct "ETH" (0 + 5) ∧
    |(0 : ℚ) + 5| ≤ demoAcct.max_position_size := by
  have hg : check_risk_limits (singleAccountAM demoAcct "ETH" 0)
      demoAcct.account_id 5 "ETH" = true := by
    simp [check_risk_limits, get_account, singleAccountAM, accountWithPos, demoAcct]
    norm_num
  have hr : GatedReachBuy demoAcct "ETH" (0 + 5) :=
    .buy 0 5 (by norm_num) hg .start
  exact ⟨by norm_num [demoAcct], hr,
    gated_buy_fills_respect_limit demoAcct "ETH" (by norm_num [demoAcct]) (0 + 5) hr⟩

/-- Counterexample for C3: because the submission pipeline hands the gate
the unsigned order quantity while the fill applies the signed delta, two
gated sells (10, then 5 against the resulting short position of -10) are
both allowed yet drive the position to -15, past
`max_position_size = 10`. -/
theorem gated_fills_can_breach_limit :
    ¬ (∀ pos : ℚ, GatedReach demoAcct "ETH" pos →
        |pos| ≤ demoAcct.max_position_size) := by
  intro hall
  have hg1 : check_risk_limits (singleAccountAM demoAcct "ETH" 0)
      demoAcct.account_id 10 "ETH" = true := by
    simp [check_risk_limits, get_account, singleAccountAM, accountWithPos, demoAcct]
    norm_num
  have hg2 : check_risk_limits (singleAccountAM demoAcct "ETH" (0 - 10))
      demoAcct.account_id 5 "ETH" = true := by
    simp [check_risk_limits, get_account, singleAccountAM, accountWithPos, demoAcct]
    norm_num
  have h2 : GatedReach demoAcct "ETH" (0 - 10 - 5) :=
    .sell (0 - 10) 5 (by norm_num) hg2 (.sell 0 10 (by norm_num) hg1 .start)
  have := hall _ h2
  norm_num [demoAcct] at this

/-- Since no trade record carries a pnl key, the equity fold is constant. -/
theorem equityFrom_const (ts : List Trade) (x : ℚ) :
    equityFrom x ts = List.replicate (ts.length + 1) x := by
  induction ts generalizing x with
  | nil => rfl
  | cons t ts ih =>
    simp [equityFrom, tradeGetPnl, ih, List.replicate_succ]

/-- Folding `max` from `x` over copies of `x` stays at `x`. -/
theorem foldl_max_replicate (m : ℕ) (x : ℚ) :
    (List.replicate m x).foldl max x = x := by
  induction m with
  | zero => rfl
  | succ m ih => simp [List.replicate_succ, max_self, ih]

/-- The maximum of a constant nonempty list is its value. -/
theorem listMax_replicate (n : ℕ) (x : ℚ) :
    listMax (List.replicate (n + 1) x) = x := by
  simp [List.replicate_succ, listMax, foldl_max_replicate]

/-- The last element of a constant nonempty list is its value. -/
theorem getLast?_replicate (n : ℕ) (x : ℚ) :
    (List.replicate (n + 1) x).getLast? = some x := by
  induction n with
  | zero => rfl
  | succ n ih =>
    rw [List.replicate_succ, List.replicate_succ, List.getLast?_cons_cons,
      ← List.replicate_succ, ih]

/-- C9: trade records appended by `update_position` carry no pnl field, so
in every state reachable through fills and metric refreshes the equity
curve is constantly 10000, `win_rate` and `current_drawdown` are 0, and the
drawdown pre-trade check can never deny (whenever the configured drawdown
limit is nonnegative). -/
theorem recorded_trades_never_deny_drawdown
    (mdl mps mdd mlv : ℚ) (s : RiskManagerState)
    (h : RMReachable (RiskManagerState.init mdl mps mdd mlv) s) :
    _calculate_equity_curve s = List.replicate (s.trade_history.length + 1) 10000 ∧
    s.risk_metrics.win_rate = 0 ∧
    s.risk_metrics.current_drawdown = 0 ∧
    (0 ≤ mdd → (_check_drawdown_limit s).1 = true) := by
  have key : s.risk_metrics.win_rate = 0 ∧ s.risk_metrics.current_drawdown = 0 ∧
      s.max_drawdown_limit = mdd := by
    induction h with
    | start => exact ⟨rfl, rfl, rfl⟩
    | fill s a t sd q p hprev ih =>
      obtain ⟨h1, h2, h3⟩ := ih
      cases sd <;> simp [update_position, _update_pnl, h1, h2, h3]
    | refresh s hprev ih =>
      obtain ⟨h1, h2, h3⟩ := ih
      by_cases he : s.trade_history.isEmpty
      · simp [update_risk_metrics, he, h1, h2, h3]
      · have hn : s.trade_history ≠ [] := by
          simpa [List.isEmpty_iff] using he
        obtain ⟨t0, ts, hts⟩ := List.exists_cons_of_ne_nil hn
        rw [update_risk_metrics]
        simp only [he, Bool.false_eq_true, if_false]
        simp [tradeGetPnl, List.filter_false, _calculate_equity_curve,
          equityFrom_const, hts, List.replicate_succ, listMax_replicate,
          foldl_max_replicate, getLast?_replicate, h1, h2, h3,
          ← List.replicate_succ]
  obtain ⟨h1, h2, h3⟩ := key
  refine ⟨by simp [_calculate_equity_curve, equityFrom_const], h1, h2, ?_⟩
  intro hmdd
  have hnot : ¬ (s.risk_metrics.current_drawdown > s.max_drawdown_limit) := by
    rw [h2, h3]
    exact not_lt.mpr hmdd
  simp [_check_drawdown_limit, hnot]

/-- Witness for C9 after one sell fill and one metrics refresh. -/
theorem recorded_trades_never_deny_drawdown_witness :
    (0 : ℚ) ≤ 1 / 10 ∧
    (_check_drawdown_limit (update_risk_metrics
      (update_position rmDemo "a1" "ETH" .sell 2 3))).1 = true :=
  ⟨by norm_num,
   (recorded_trades_never_deny_drawdown 1000 10000 (1 / 10) 3 _
     (.refresh _ (.fill rmDemo "a1" "ETH" .sell 2 3 .start))).2.2.2 (by norm_num)⟩

end Ethereal
